import Mathlib

/-!
Verification of the DNS resolver's core: domain normalization, per-record-type
lookup aggregation with partial-failure tolerance, the TTL-bounded result cache,
batch resolution, and command dispatch.

The Go program keeps its records in `map[string][]string` and its cache in a
`map[string]struct{records; expiry}`; both are modelled as association lists
over `String` keys.  Time is modelled in nanoseconds (Go's `time.Duration`
unit), so `10 * time.Minute` is `10 * 60 * 1000000000`.  External collaborators
(the platform stub resolver `net.Lookup*` and `idna.ToASCII`) are modelled as
oracle parameters whose outcomes range over `Option`: `none` is an error
return, `some` a successful one.
-/

namespace DNSResolver

/-- Association-list lookup, modelling reading a Go `map` at a key:
the first binding for the key, if any. -/
def assocFind {α : Type} (k : String) : List (String × α) → Option α
  | [] => none
  | (k2, v) :: rest => if k2 = k then some v else assocFind k rest

/-- Association-list update, modelling Go `m[k] = v`: replaces the first
binding for the key, or appends a fresh binding. -/
def assocSet {α : Type} (k : String) (v : α) : List (String × α) → List (String × α)
  | [] => [(k, v)]
  | (k2, v2) :: rest => if k2 = k then (k, v) :: rest else (k2, v2) :: assocSet k v rest

/-- A `RecordSet` is the Go `map[string][]string` of resolved records. -/
abbrev RecordSet := List (String × List String)

/-- One address returned by `net.LookupIP`: `isV4` models `ip.To4() != nil`,
`str` models `ip.String()`. -/
structure IPAddr where
  isV4 : Bool
  str : String
deriving DecidableEq, Repr

/-- One `net.MX` record: `Host` and `Pref` fields. -/
structure MXRec where
  host : String
  pref : Nat
deriving DecidableEq, Repr

/-- One `net.NS` record: the `Host` field. -/
structure NSRec where
  host : String
deriving DecidableEq, Repr

/-- The outcomes of the five record-type lookups for one domain, as delivered
by the platform stub resolver.  `none` models a non-nil `err`. -/
structure LookupResults where
  ip : Option (List IPAddr)
  cname : Option String
  mx : Option (List MXRec)
  txt : Option (List String)
  ns : Option (List NSRec)
deriving DecidableEq, Repr

/-- Rendering of one MX record: `fmt.Sprintf("%s (Priority: %d)", mx.Host, mx.Pref)`. -/
def mxString (mx : MXRec) : String :=
  mx.host ++ " (Priority: " ++ toString mx.pref ++ ")"

/-- Go `records[k] = append(records[k], v)`: a missing key reads as the nil
slice, so this appends `v` to the key's current (possibly empty) value list. -/
def goAppend (k : String) (v : String) (recs : RecordSet) : RecordSet :=
  assocSet k ((assocFind k recs).getD [] ++ [v]) recs

/-- Body of the `for _, ip := range ips` loop in `resolveDNS`: an IPv4 address
is appended under `"A"`, any other under `"AAAA"`. -/
def ipStep (recs : RecordSet) (ip : IPAddr) : RecordSet :=
  if ip.isV4 then goAppend "A" ip.str recs else goAppend "AAAA" ip.str recs

/-- The string forms of the IPv4 addresses in a lookup result, in order. -/
def v4strs (ips : List IPAddr) : List String :=
  (ips.filter fun ip => ip.isV4).map IPAddr.str

/-- The string forms of the non-IPv4 addresses in a lookup result, in order. -/
def v6strs (ips : List IPAddr) : List String :=
  (ips.filter fun ip => !ip.isV4).map IPAddr.str

/-- The A/AAAA block of `resolveDNS`: on `err == nil` loop over the addresses,
otherwise log and leave `records` unchanged. -/
def addIP (res : Option (List IPAddr)) (recs : RecordSet) : RecordSet :=
  match res with
  | some ips => ips.foldl ipStep recs
  | none => recs

/-- The CNAME block of `resolveDNS`: on success `records["CNAME"] = []string{cname}`. -/
def addCNAME (res : Option String) (recs : RecordSet) : RecordSet :=
  match res with
  | some cname => assocSet "CNAME" [cname] recs
  | none => recs

/-- The MX block of `resolveDNS`: on success append the rendering of each
`net.MX` under `"MX"`. -/
def addMX (res : Option (List MXRec)) (recs : RecordSet) : RecordSet :=
  match res with
  | some mxRecords => mxRecords.foldl (fun recs mx => goAppend "MX" (mxString mx) recs) recs
  | none => recs

/-- The TXT block of `resolveDNS`: on success `records["TXT"] = txtRecords`
(direct assignment, not an append loop). -/
def addTXT (res : Option (List String)) (recs : RecordSet) : RecordSet :=
  match res with
  | some txtRecords => assocSet "TXT" txtRecords recs
  | none => recs

/-- The NS block of `resolveDNS`: on success append each `ns.Host` under `"NS"`. -/
def addNS (res : Option (List NSRec)) (recs : RecordSet) : RecordSet :=
  match res with
  | some nsRecords => nsRecords.foldl (fun recs ns => goAppend "NS" ns.host recs) recs
  | none => recs

/-- The aggregation performed by the cache-miss path of `resolveDNS`: the five
record-type blocks applied in source order (address, CNAME, MX, TXT, NS) to the
freshly made empty `records` map. -/
def buildRecords (r : LookupResults) : RecordSet :=
  addNS r.ns (addTXT r.txt (addMX r.mx (addCNAME r.cname (addIP r.ip []))))

/-- `normalizeDomain`: `idna.ToASCII` (the oracle `toASCII`); on error, log and
return the original input unchanged. -/
def normalizeDomain (toASCII : String → Option String) (domain : String) : String :=
  match toASCII domain with
  | some normalized => normalized
  | none => domain

/-- One entry of the global `dnsCache`: a record set and its absolute expiry. -/
structure CacheEntry where
  records : RecordSet
  expiry : Nat
deriving DecidableEq, Repr

/-- The global `dnsCache` map. -/
abbrev Cache := List (String × CacheEntry)

/-- `10 * time.Minute` in nanoseconds, the fixed cache TTL. -/
def tenMinutes : Nat := 10 * 60 * 1000000000

/-- `cacheResult`: store the records for a domain with expiry `now + 10m`. -/
def cacheResult (now : Nat) (cache : Cache) (domain : String) (records : RecordSet) : Cache :=
  assocSet domain { records := records, expiry := now + tenMinutes } cache

/-- `getCachedResult`: `(nil, false)` when the entry is absent or
`time.Now().After(entry.expiry)`, else the stored records. -/
def getCachedResult (now : Nat) (cache : Cache) (domain : String) : Option RecordSet :=
  match assocFind domain cache with
  | none => none
  | some entry => if entry.expiry < now then none else some entry.records

/-- What one call to `resolveDNS` produces: the returned map, the cache as it
stands afterwards, and whether the Lookup Service was consulted at all
(`false` exactly on the cache-hit path). -/
structure ResolveOutcome where
  records : RecordSet
  cache : Cache
  usedLookup : Bool
deriving DecidableEq, Repr

/-- `resolveDNS`: normalize, consult the cache, and on a miss run the five
lookups (outcomes given by the `lookup` oracle), cache the aggregate, return it. -/
def resolveDNS (toASCII : String → Option String) (lookup : String → LookupResults)
    (now : Nat) (cache : Cache) (domain : String) : ResolveOutcome :=
  match getCachedResult now cache (normalizeDomain toASCII domain) with
  | some cached => { records := cached, cache := cache, usedLookup := false }
  | none =>
      { records := buildRecords (lookup (normalizeDomain toASCII domain)),
        cache := cacheResult now cache (normalizeDomain toASCII domain)
          (buildRecords (lookup (normalizeDomain toASCII domain))),
        usedLookup := true }

/-- How a `resolveBatch` call ends: `fatal` models `log.Fatalf` on a failed
`os.Open` (process exit, control never returns), `completed` carries the
per-domain results of every launched resolution. -/
inductive BatchOutcome where
  | fatal
  | completed (results : List (String × RecordSet))
deriving DecidableEq, Repr

/-- `resolveBatch`: `openResult` is the outcome of `os.Open` plus line
scanning (`none` = open error); on success every scanned domain is resolved. -/
def resolveBatch (openResult : Option (List String)) (resolve : String → RecordSet) :
    BatchOutcome :=
  match openResult with
  | none => BatchOutcome.fatal
  | some lines => BatchOutcome.completed (lines.map fun domain => (domain, resolve domain))

/-- The action `main` dispatches to for a given argument vector. -/
inductive Action where
  | usage
  | serverComingSoon (arg : String)
  | resolveSingle (arg : String)
  | reverse (arg : String)
  | batch (arg : String)
  | invalid
deriving DecidableEq, Repr

/-- Whether an action is the reverse-lookup operation. -/
def Action.isReverse : Action → Bool
  | Action.reverse _ => true
  | _ => false

/-- `strings.Contains(s, needle)` for a single-character needle: whether the
character occurs in the string. -/
def containsChar (s : String) (c : Char) : Bool :=
  s.data.contains c

/-- The argument dispatch of `main`: `argv` is `os.Args` (program name first).
The switch tests, in order: `arg` contains a dot (then `--server` with exactly
four args, else single resolution); `arg` contains a colon (reverse lookup);
exactly three args with `--file` (batch); otherwise invalid input. -/
def mainDispatch (argv : List String) : Action :=
  match argv with
  | _prog :: arg :: rest =>
      if containsChar arg '.' then
        if rest.length == 2 && rest.head? == some "--server" then
          Action.serverComingSoon arg
        else
          Action.resolveSingle arg
      else if containsChar arg ':' then
        Action.reverse arg
      else if rest.length == 1 && rest.head? == some "--file" then
        Action.batch arg
      else
        Action.invalid
  | _ => Action.usage

/-- A sample record set used to exercise the cache operations. -/
def rsSample : RecordSet := [("A", ["93.184.216.34"])]

/-- A normalization oracle on which `idna.ToASCII` succeeds verbatim, as it
does on any plain ASCII domain. -/
def idToASCII : String → Option String := fun s => some s

/-- A lookup oracle on which every record-type lookup fails. -/
def lookupNone : String → LookupResults := fun _ =>
  { ip := none, cname := none, mx := none, txt := none, ns := none }

/-- A lookup oracle where the address and TXT lookups succeed but the CNAME,
MX and NS lookups fail. -/
def lookupMixed : String → LookupResults := fun _ =>
  { ip := some [{ isV4 := true, str := "93.184.216.34" }], cname := none,
    mx := none, txt := some ["v=spf1 -all"], ns := none }

/-- A lookup oracle where the TXT lookup succeeds with zero values and the MX
lookup succeeds with zero records; everything else fails. -/
def lookupTxtEmpty : String → LookupResults := fun _ =>
  { ip := none, cname := none, mx := some [], txt := some [], ns := none }

@[simp] theorem assocFind_nil {α : Type} (k : String) :
    assocFind (α := α) k [] = none := rfl

theorem assocFind_assocSet_self {α : Type} (k : String) (v : α) :
    ∀ m : List (String × α), assocFind k (assocSet k v m) = some v := by
  intro m
  induction m with
  | nil => simp [assocFind, assocSet]
  | cons hd tl ih =>
      obtain ⟨k2, v2⟩ := hd
      by_cases h : k2 = k
      · simp [assocFind, assocSet, h]
      · simp [assocFind, assocSet, h, ih]

theorem assocFind_assocSet_ne {α : Type} (k k2 : String) (v : α) (hne : k2 ≠ k) :
    ∀ m : List (String × α), assocFind k2 (assocSet k v m) = assocFind k2 m := by
  intro m
  induction m with
  | nil => simp [assocFind, assocSet, Ne.symm hne]
  | cons hd tl ih =>
      obtain ⟨k3, v3⟩ := hd
      by_cases h : k3 = k
      · subst h
        simp [assocFind, assocSet, Ne.symm hne]
      · simp [assocFind, assocSet, h, ih]

theorem goAppend_find_self (k v : String) (recs : RecordSet) :
    assocFind k (goAppend k v recs) = some ((assocFind k recs).getD [] ++ [v]) :=
  assocFind_assocSet_self k _ recs

theorem goAppend_find_ne (k k2 v : String) (hne : k2 ≠ k) (recs : RecordSet) :
    assocFind k2 (goAppend k v recs) = assocFind k2 recs :=
  assocFind_assocSet_ne k k2 _ hne recs

theorem v4strs_nil : v4strs [] = [] := rfl

theorem v4strs_cons (ip : IPAddr) (ips : List IPAddr) :
    v4strs (ip :: ips) = if ip.isV4 then ip.str :: v4strs ips else v4strs ips := by
  by_cases h : ip.isV4 <;> simp [v4strs, List.filter_cons, h]

theorem v6strs_nil : v6strs [] = [] := rfl

theorem v6strs_cons (ip : IPAddr) (ips : List IPAddr) :
    v6strs (ip :: ips) = if ip.isV4 then v6strs ips else ip.str :: v6strs ips := by
  by_cases h : ip.isV4 <;> simp [v6strs, List.filter_cons, h]

theorem foldl_goAppend_find_ne {α : Type} (k k2 : String) (f : α → String) (hne : k2 ≠ k) :
    ∀ (xs : List α) (recs : RecordSet),
      assocFind k2 (xs.foldl (fun recs x => goAppend k (f x) recs) recs) = assocFind k2 recs := by
  intro xs
  induction xs with
  | nil => intro recs; rfl
  | cons x xs ih =>
      intro recs
      rw [List.foldl_cons, ih, goAppend_find_ne k k2 (f x) hne]

theorem foldl_goAppend_find_self {α : Type} [DecidableEq α] (k : String) (f : α → String) :
    ∀ (xs : List α) (recs : RecordSet),
      assocFind k (xs.foldl (fun recs x => goAppend k (f x) recs) recs) =
        (if xs = [] then assocFind k recs
         else some ((assocFind k recs).getD [] ++ xs.map f)) := by
  intro xs
  induction xs with
  | nil => intro recs; rfl
  | cons x xs ih =>
      intro recs
      rw [List.foldl_cons, ih]
      by_cases hxs : xs = []
      · simp [hxs, goAppend_find_self]
      · simp [hxs, goAppend_find_self, List.append_assoc]

theorem foldl_ipStep_find_ne (k : String) (h1 : k ≠ "A") (h2 : k ≠ "AAAA") :
    ∀ (ips : List IPAddr) (recs : RecordSet),
      assocFind k (ips.foldl ipStep recs) = assocFind k recs := by
  intro ips
  induction ips with
  | nil => intro recs; rfl
  | cons ip ips ih =>
      intro recs
      rw [List.foldl_cons, ih]
      by_cases hv : ip.isV4 <;>
        simp [ipStep, hv, goAppend_find_ne _ _ _ h1, goAppend_find_ne _ _ _ h2]

theorem foldl_ipStep_find_A :
    ∀ (ips : List IPAddr) (recs : RecordSet),
      assocFind "A" (ips.foldl ipStep recs) =
        (if v4strs ips = [] then assocFind "A" recs
         else some ((assocFind "A" recs).getD [] ++ v4strs ips)) := by
  intro ips
  induction ips with
  | nil => intro recs; rfl
  | cons ip ips ih =>
      intro recs
      rw [List.foldl_cons, ih, v4strs_cons]
      by_cases hv : ip.isV4
      · by_cases hrest : v4strs ips = []
        · simp [ipStep, hv, hrest, goAppend_find_self]
        · simp [ipStep, hv, hrest, goAppend_find_self, List.append_assoc]
      · simp [ipStep, hv, goAppend_find_ne "AAAA" "A" _ (by decide)]

theorem foldl_ipStep_find_AAAA :
    ∀ (ips : List IPAddr) (recs : RecordSet),
      assocFind "AAAA" (ips.foldl ipStep recs) =
        (if v6strs ips = [] then assocFind "AAAA" recs
         else some ((assocFind "AAAA" recs).getD [] ++ v6strs ips)) := by
  intro ips
  induction ips with
  | nil => intro recs; rfl
  | cons ip ips ih =>
      intro recs
      rw [List.foldl_cons, ih, v6strs_cons]
      by_cases hv : ip.isV4
      · simp [ipStep, hv, goAppend_find_ne "A" "AAAA" _ (by decide)]
      · by_cases hrest : v6strs ips = []
        · simp [ipStep, hv, hrest, goAppend_find_self]
        · simp [ipStep, hv, hrest, goAppend_find_self, List.append_assoc]

theorem addIP_find_ne (res : Option (List IPAddr)) (recs : RecordSet) (k : String)
    (h1 : k ≠ "A") (h2 : k ≠ "AAAA") :
    assocFind k (addIP res recs) = assocFind k recs := by
  cases res with
  | none => rfl
  | some ips => simp [addIP, foldl_ipStep_find_ne k h1 h2]

theorem addCNAME_find_ne (res : Option String) (recs : RecordSet) (k : String)
    (h : k ≠ "CNAME") :
    assocFind k (addCNAME res recs) = assocFind k recs := by
  cases res with
  | none => rfl
  | some cname => simp [addCNAME, assocFind_assocSet_ne _ _ _ h]

theorem addMX_find_ne (res : Option (List MXRec)) (recs : RecordSet) (k : String)
    (h : k ≠ "MX") :
    assocFind k (addMX res recs) = assocFind k recs := by
  cases res with
  | none => rfl
  | some mxRecords => simp [addMX, foldl_goAppend_find_ne _ _ _ h]

theorem addTXT_find_ne (res : Option (List String)) (recs : RecordSet) (k : String)
    (h : k ≠ "TXT") :
    assocFind k (addTXT res recs) = assocFind k recs := by
  cases res with
  | none => rfl
  | some txtRecords => simp [addTXT, assocFind_assocSet_ne _ _ _ h]

theorem addNS_find_ne (res : Option (List NSRec)) (recs : RecordSet) (k : String)
    (h : k ≠ "NS") :
    assocFind k (addNS res recs) = assocFind k recs := by
  cases res with
  | none => rfl
  | some nsRecords => simp [addNS, foldl_goAppend_find_ne _ _ _ h]

theorem buildRecords_find_A (r : LookupResults) :
    assocFind "A" (buildRecords r) =
      (match r.ip with
       | none => none
       | some ips => if v4strs ips = [] then none else some (v4strs ips)) := by
  unfold buildRecords
  rw [addNS_find_ne _ _ _ (by decide), addTXT_find_ne _ _ _ (by decide),
    addMX_find_ne _ _ _ (by decide), addCNAME_find_ne _ _ _ (by decide)]
  cases hip : r.ip with
  | none => rfl
  | some ips => simp [addIP, foldl_ipStep_find_A]

theorem buildRecords_find_AAAA (r : LookupResults) :
    assocFind "AAAA" (buildRecords r) =
      (match r.ip with
       | none => none
       | some ips => if v6strs ips = [] then none else some (v6strs ips)) := by
  unfold buildRecords
  rw [addNS_find_ne _ _ _ (by decide), addTXT_find_ne _ _ _ (by decide),
    addMX_find_ne _ _ _ (by decide), addCNAME_find_ne _ _ _ (by decide)]
  cases hip : r.ip with
  | none => rfl
  | some ips => simp [addIP, foldl_ipStep_find_AAAA]

theorem buildRecords_find_CNAME (r : LookupResults) :
    assocFind "CNAME" (buildRecords r) =
      (match r.cname with
       | none => none
       | some cname => some [cname]) := by
  unfold buildRecords
  rw [addNS_find_ne _ _ _ (by decide), addTXT_find_ne _ _ _ (by decide),
    addMX_find_ne _ _ _ (by decide)]
  cases hcn : r.cname with
  | none =>
      simp only [addCNAME]
      rw [addIP_find_ne _ _ _ (by decide) (by decide)]
      rfl
  | some cname => simp [addCNAME, assocFind_assocSet_self]

theorem buildRecords_find_MX (r : LookupResults) :
    assocFind "MX" (buildRecords r) =
      (match r.mx with
       | none => none
       | some mxRecords =>
           if mxRecords = [] then none else some (mxRecords.map mxString)) := by
  unfold buildRecords
  rw [addNS_find_ne _ _ _ (by decide), addTXT_find_ne _ _ _ (by decide)]
  have hbase : assocFind "MX" (addCNAME r.cname (addIP r.ip [])) = none := by
    rw [addCNAME_find_ne _ _ _ (by decide), addIP_find_ne _ _ _ (by decide) (by decide)]
    rfl
  cases hmx : r.mx with
  | none => simpa [addMX] using hbase
  | some mxRecords =>
      simp only [addMX]
      rw [foldl_goAppend_find_self, hbase]
      by_cases h : mxRecords = [] <;> simp [h]

theorem buildRecords_find_TXT (r : LookupResults) :
    assocFind "TXT" (buildRecords r) = r.txt := by
  unfold buildRecords
  rw [addNS_find_ne _ _ _ (by decide)]
  cases htxt : r.txt with
  | none =>
      simp only [addTXT]
      rw [addMX_find_ne _ _ _ (by decide), addCNAME_find_ne _ _ _ (by decide),
        addIP_find_ne _ _ _ (by decide) (by decide)]
      rfl
  | some txtRecords => simp [addTXT, assocFind_assocSet_self]

theorem buildRecords_find_NS (r : LookupResults) :
    assocFind "NS" (buildRecords r) =
      (match r.ns with
       | none => none
       | some nsRecords =>
           if nsRecords = [] then none else some (nsRecords.map NSRec.host)) := by
  unfold buildRecords
  have hbase : assocFind "NS" (addTXT r.txt (addMX r.mx (addCNAME r.cname (addIP r.ip [])))) = none := by
    rw [addTXT_find_ne _ _ _ (by decide), addMX_find_ne _ _ _ (by decide),
      addCNAME_find_ne _ _ _ (by decide), addIP_find_ne _ _ _ (by decide) (by decide)]
    rfl
  cases hns : r.ns with
  | none => simpa [addNS] using hbase
  | some nsRecords =>
      simp only [addNS]
      rw [foldl_goAppend_find_self, hbase]
      by_cases h : nsRecords = [] <;> simp [h]

theorem buildRecords_find_A_none (r : LookupResults) (h : r.ip = none) :
    assocFind "A" (buildRecords r) = none := by
  rw [buildRecords_find_A, h]

theorem buildRecords_find_A_some (r : LookupResults) (ips : List IPAddr)
    (h : r.ip = some ips) :
    assocFind "A" (buildRecords r) =
      (if v4strs ips = [] then none else some (v4strs ips)) := by
  rw [buildRecords_find_A, h]

theorem buildRecords_find_AAAA_none (r : LookupResults) (h : r.ip = none) :
    assocFind "AAAA" (buildRecords r) = none := by
  rw [buildRecords_find_AAAA, h]

theorem buildRecords_find_AAAA_some (r : LookupResults) (ips : List IPAddr)
    (h : r.ip = some ips) :
    assocFind "AAAA" (buildRecords r) =
      (if v6strs ips = [] then none else some (v6strs ips)) := by
  rw [buildRecords_find_AAAA, h]

theorem buildRecords_find_CNAME_none (r : LookupResults) (h : r.cname = none) :
    assocFind "CNAME" (buildRecords r) = none := by
  rw [buildRecords_find_CNAME, h]

theorem buildRecords_find_CNAME_some (r : LookupResults) (cname : String)
    (h : r.cname = some cname) :
    assocFind "CNAME" (buildRecords r) = some [cname] := by
  rw [buildRecords_find_CNAME, h]

theorem buildRecords_find_MX_none (r : LookupResults) (h : r.mx = none) :
    assocFind "MX" (buildRecords r) = none := by
  rw [buildRecords_find_MX, h]

theorem buildRecords_find_MX_some (r : LookupResults) (mxRecords : List MXRec)
    (h : r.mx = some mxRecords) :
    assocFind "MX" (buildRecords r) =
      (if mxRecords = [] then none else some (mxRecords.map mxString)) := by
  rw [buildRecords_find_MX, h]

theorem buildRecords_find_NS_none (r : LookupResults) (h : r.ns = none) :
    assocFind "NS" (buildRecords r) = none := by
  rw [buildRecords_find_NS, h]

theorem buildRecords_find_NS_some (r : LookupResults) (nsRecords : List NSRec)
    (h : r.ns = some nsRecords) :
    assocFind "NS" (buildRecords r) =
      (if nsRecords = [] then none else some (nsRecords.map NSRec.host)) := by
  rw [buildRecords_find_NS, h]

theorem buildRecords_find_other (r : LookupResults) (k : String)
    (hA : k ≠ "A") (hAAAA : k ≠ "AAAA") (hCNAME : k ≠ "CNAME")
    (hMX : k ≠ "MX") (hTXT : k ≠ "TXT") (hNS : k ≠ "NS") :
    assocFind k (buildRecords r) = none := by
  unfold buildRecords
  rw [addNS_find_ne _ _ _ hNS, addTXT_find_ne _ _ _ hTXT, addMX_find_ne _ _ _ hMX,
    addCNAME_find_ne _ _ _ hCNAME, addIP_find_ne _ _ _ hA hAAAA]
  rfl

theorem resolveDNS_hit (toASCII : String → Option String) (lookup : String → LookupResults)
    (now : Nat) (cache : Cache) (domain : String) (rs : RecordSet)
    (h : getCachedResult now cache (normalizeDomain toASCII domain) = some rs) :
    resolveDNS toASCII lookup now cache domain =
      { records := rs, cache := cache, usedLookup := false } := by
  unfold resolveDNS
  rw [h]

theorem resolveDNS_miss (toASCII : String → Option String) (lookup : String → LookupResults)
    (now : Nat) (cache : Cache) (domain : String)
    (h : getCachedResult now cache (normalizeDomain toASCII domain) = none) :
    resolveDNS toASCII lookup now cache domain =
      { records := buildRecords (lookup (normalizeDomain toASCII domain)),
        cache := cacheResult now cache (normalizeDomain toASCII domain)
          (buildRecords (lookup (normalizeDomain toASCII domain))),
        usedLookup := true } := by
  unfold resolveDNS
  rw [h]

theorem resolveDNS_miss_records (toASCII : String → Option String)
    (lookup : String → LookupResults) (now : Nat) (cache : Cache) (domain : String)
    (h : getCachedResult now cache (normalizeDomain toASCII domain) = none) :
    (resolveDNS toASCII lookup now cache domain).records =
      buildRecords (lookup (normalizeDomain toASCII domain)) := by
  rw [resolveDNS_miss toASCII lookup now cache domain h]

theorem resolveDNS_miss_cache (toASCII : String → Option String)
    (lookup : String → LookupResults) (now : Nat) (cache : Cache) (domain : String)
    (h : getCachedResult now cache (normalizeDomain toASCII domain) = none) :
    (resolveDNS toASCII lookup now cache domain).cache =
      cacheResult now cache (normalizeDomain toASCII domain)
        (buildRecords (lookup (normalizeDomain toASCII domain))) := by
  rw [resolveDNS_miss toASCII lookup now cache domain h]

theorem resolveDNS_miss_usedLookup (toASCII : String → Option String)
    (lookup : String → LookupResults) (now : Nat) (cache : Cache) (domain : String)
    (h : getCachedResult now cache (normalizeDomain toASCII domain) = none) :
    (resolveDNS toASCII lookup now cache domain).usedLookup = true := by
  rw [resolveDNS_miss toASCII lookup now cache domain h]

/-- Claim C4: `getCachedResult` returns no result when the domain has no cache
entry or when the stored entry's expiry lies strictly in the past; otherwise it
returns exactly the stored record set, in particular the one stored by the most
recent `cacheResult` for that domain. -/
theorem getCachedResult_found_iff_fresh (now : Nat) (cache : Cache) (domain : String) :
    (assocFind domain cache = none → getCachedResult now cache domain = none) ∧
    (∀ e : CacheEntry, assocFind domain cache = some e → e.expiry < now →
      getCachedResult now cache domain = none) ∧
    (∀ e : CacheEntry, assocFind domain cache = some e → ¬ e.expiry < now →
      getCachedResult now cache domain = some e.records) ∧
    (∀ (rs : RecordSet) (tput : Nat), ¬ tput + tenMinutes < now →
      getCachedResult now (cacheResult tput cache domain rs) domain = some rs) := by
  refine ⟨?_, ?_, ?_, ?_⟩
  · intro h; simp [getCachedResult, h]
  · intro e he hexp; simp [getCachedResult, he, hexp]
  · intro e he hexp; simp [getCachedResult, he, hexp]
  · intro rs tput hfresh
    simp [getCachedResult, cacheResult, assocFind_assocSet_self, hfresh]

theorem getCachedResult_found_iff_fresh_witness :
    getCachedResult 5 (cacheResult 5 [] "example.com" rsSample) "example.com" = some rsSample :=
  (getCachedResult_found_iff_fresh 5 [] "example.com").2.2.2 rsSample 5 (by decide)

/-- Claim C5: `cacheResult` inserts or wholesale-replaces the single entry for
the given domain, with absolute expiry `now` plus exactly ten minutes, and
leaves every other domain's entry untouched. -/
theorem cacheResult_inserts_with_ttl (now : Nat) (cache : Cache) (domain : String)
    (records : RecordSet) :
    assocFind domain (cacheResult now cache domain records) =
      some { records := records, expiry := now + tenMinutes } ∧
    (∀ d : String, d ≠ domain →
      assocFind d (cacheResult now cache domain records) = assocFind d cache) ∧
    tenMinutes = 10 * 60 * 1000000000 := by
  refine ⟨assocFind_assocSet_self _ _ _, ?_, rfl⟩
  intro d hd
  exact assocFind_assocSet_ne _ _ _ hd _

theorem cacheResult_inserts_with_ttl_witness :
    assocFind "other.com"
        (cacheResult 0 [("other.com", { records := [], expiry := 3 })] "example.com" rsSample) =
      assocFind "other.com" [("other.com", { records := [], expiry := 3 })] :=
  (cacheResult_inserts_with_ttl 0 [("other.com", { records := [], expiry := 3 })]
    "example.com" rsSample).2.1 "other.com" (by decide)

/-- Claim C10: at the exact expiry instant the cached entry is still returned;
it is treated as absent only strictly after its expiry. -/
theorem getCachedResult_at_exact_expiry (cache : Cache) (domain : String) (e : CacheEntry)
    (he : assocFind domain cache = some e) :
    getCachedResult e.expiry cache domain = some e.records ∧
    (∀ t : Nat, e.expiry < t → getCachedResult t cache domain = none) := by
  constructor
  · simp [getCachedResult, he]
  · intro t ht; simp [getCachedResult, he, ht]

theorem getCachedResult_at_exact_expiry_witness :
    getCachedResult 42 [("example.com", { records := rsSample, expiry := 42 })] "example.com" =
      some rsSample ∧
    getCachedResult 43 [("example.com", { records := rsSample, expiry := 42 })] "example.com" =
      none := by
  have h := getCachedResult_at_exact_expiry
    [("example.com", { records := rsSample, expiry := 42 })] "example.com"
    { records := rsSample, expiry := 42 } (by rfl)
  exact ⟨h.1, h.2 43 (by decide)⟩

/-- Claim C7: when punycode conversion fails, `normalizeDomain` returns the
original input unmodified (and on success, the converted form); being a pure
function of the conversion oracle and the input, it is deterministic. -/
theorem normalizeDomain_fallback_deterministic (toASCII : String → Option String)
    (domain : String) :
    (toASCII domain = none → normalizeDomain toASCII domain = domain) ∧
    (∀ s : String, toASCII domain = some s → normalizeDomain toASCII domain = s) ∧
    normalizeDomain toASCII domain = normalizeDomain toASCII domain := by
  refine ⟨?_, ?_, rfl⟩
  · intro h; simp [normalizeDomain, h]
  · intro s h; simp [normalizeDomain, h]

theorem normalizeDomain_fallback_deterministic_witness :
    normalizeDomain (fun _ => none) "bücher.example" = "bücher.example" :=
  (normalizeDomain_fallback_deterministic (fun _ => none) "bücher.example").1 rfl

/-- Claim C8: when opening the batch input source fails, `resolveBatch` ends in
the fatal outcome (`log.Fatalf`, process termination): no completed outcome is
possible, so no domain resolution result is ever produced. -/
theorem resolveBatch_fatal_on_open_failure (resolve : String → RecordSet) :
    resolveBatch none resolve = BatchOutcome.fatal ∧
    (∀ results : List (String × RecordSet),
      resolveBatch none resolve ≠ BatchOutcome.completed results) := by
  refine ⟨rfl, ?_⟩
  intro results h
  exact BatchOutcome.noConfusion h

theorem resolveBatch_fatal_on_open_failure_witness :
    resolveBatch none (fun _ => ([] : RecordSet)) = BatchOutcome.fatal :=
  (resolveBatch_fatal_on_open_failure (fun _ => ([] : RecordSet))).1

/-- Claim C3: when the normalized domain has an unexpired cache entry,
`resolveDNS` returns exactly the cached record set, leaves the cache untouched,
and never consults the Lookup Service. -/
theorem resolveDNS_cache_hit_no_lookup (toASCII : String → Option String)
    (lookup : String → LookupResults) (now : Nat) (cache : Cache) (domain : String)
    (e : CacheEntry)
    (he : assocFind (normalizeDomain toASCII domain) cache = some e)
    (hfresh : ¬ e.expiry < now) :
    resolveDNS toASCII lookup now cache domain =
      { records := e.records, cache := cache, usedLookup := false } := by
  apply resolveDNS_hit
  simp [getCachedResult, he, hfresh]

theorem resolveDNS_cache_hit_no_lookup_witness :
    resolveDNS idToASCII lookupNone 0 [("example.com", { records := rsSample, expiry := 0 })]
        "example.com" =
      { records := rsSample,
        cache := [("example.com", { records := rsSample, expiry := 0 })],
        usedLookup := false } :=
  resolveDNS_cache_hit_no_lookup idToASCII lookupNone 0
    [("example.com", { records := rsSample, expiry := 0 })] "example.com"
    { records := rsSample, expiry := 0 } (by decide) (by decide)

/-- Claim C6: on a cache miss `resolveDNS` always stores the aggregated record
set in the cache under the normalized domain (with expiry `now` + TTL) before
returning it — for every outcome of the lookups, including a completely empty
aggregate. -/
theorem resolveDNS_miss_caches_aggregate (toASCII : String → Option String)
    (lookup : String → LookupResults) (now : Nat) (cache : Cache) (domain : String)
    (hmiss : getCachedResult now cache (normalizeDomain toASCII domain) = none) :
    (resolveDNS toASCII lookup now cache domain).usedLookup = true ∧
    (resolveDNS toASCII lookup now cache domain).records =
      buildRecords (lookup (normalizeDomain toASCII domain)) ∧
    assocFind (normalizeDomain toASCII domain)
        (resolveDNS toASCII lookup now cache domain).cache =
      some { records := buildRecords (lookup (normalizeDomain toASCII domain)),
             expiry := now + tenMinutes } := by
  refine ⟨resolveDNS_miss_usedLookup toASCII lookup now cache domain hmiss,
    resolveDNS_miss_records toASCII lookup now cache domain hmiss, ?_⟩
  rw [resolveDNS_miss_cache toASCII lookup now cache domain hmiss]
  exact assocFind_assocSet_self _ _ _

theorem resolveDNS_miss_caches_aggregate_witness :
    ((resolveDNS idToASCII lookupNone 0 [] "example.com").usedLookup = true ∧
      (resolveDNS idToASCII lookupNone 0 [] "example.com").records =
        buildRecords (lookupNone (normalizeDomain idToASCII "example.com")) ∧
      assocFind (normalizeDomain idToASCII "example.com")
          (resolveDNS idToASCII lookupNone 0 [] "example.com").cache =
        some { records := buildRecords (lookupNone (normalizeDomain idToASCII "example.com")),
               expiry := 0 + tenMinutes }) ∧
    buildRecords (lookupNone (normalizeDomain idToASCII "example.com")) = ([] : RecordSet) :=
  ⟨resolveDNS_miss_caches_aggregate idToASCII lookupNone 0 [] "example.com" (by rfl), rfl⟩

/-- Claim C1: on a cache miss `resolveDNS` always yields a record set
(aggregation never escalates a category failure to an overall error); each
failing category's keys are absent from the result, and every other category is
still attempted — its keys are determined by its own lookup outcome alone. -/
theorem resolveDNS_partial_failure_nonfatal (toASCII : String → Option String)
    (lookup : String → LookupResults) (now : Nat) (cache : Cache) (domain : String)
    (r : LookupResults)
    (hr : r = lookup (normalizeDomain toASCII domain))
    (hmiss : getCachedResult now cache (normalizeDomain toASCII domain) = none) :
    (resolveDNS toASCII lookup now cache domain).records = buildRecords r ∧
    (r.ip = none →
      assocFind "A" (buildRecords r) = none ∧ assocFind "AAAA" (buildRecords r) = none) ∧
    (r.cname = none → assocFind "CNAME" (buildRecords r) = none) ∧
    (r.mx = none → assocFind "MX" (buildRecords r) = none) ∧
    (r.txt = none → assocFind "TXT" (buildRecords r) = none) ∧
    (r.ns = none → assocFind "NS" (buildRecords r) = none) ∧
    (∀ ips, r.ip = some ips →
      assocFind "A" (buildRecords r) =
        (if v4strs ips = [] then none else some (v4strs ips)) ∧
      assocFind "AAAA" (buildRecords r) =
        (if v6strs ips = [] then none else some (v6strs ips))) ∧
    (∀ cname, r.cname = some cname → assocFind "CNAME" (buildRecords r) = some [cname]) ∧
    (∀ mxRecords, r.mx = some mxRecords →
      assocFind "MX" (buildRecords r) =
        (if mxRecords = [] then none else some (mxRecords.map mxString))) ∧
    (∀ txtRecords, r.txt = some txtRecords →
      assocFind "TXT" (buildRecords r) = some txtRecords) ∧
    (∀ nsRecords, r.ns = some nsRecords →
      assocFind "NS" (buildRecords r) =
        (if nsRecords = [] then none else some (nsRecords.map NSRec.host))) := by
  subst hr
  refine ⟨resolveDNS_miss_records toASCII lookup now cache domain hmiss,
    ?_, ?_, ?_, ?_, ?_, ?_, ?_, ?_, ?_, ?_⟩
  · intro h; constructor
    · rw [buildRecords_find_A, h]
    · rw [buildRecords_find_AAAA, h]
  · intro h; rw [buildRecords_find_CNAME, h]
  · intro h; rw [buildRecords_find_MX, h]
  · intro h; rw [buildRecords_find_TXT, h]
  · intro h; rw [buildRecords_find_NS, h]
  · intro ips h; constructor
    · rw [buildRecords_find_A, h]
    · rw [buildRecords_find_AAAA, h]
  · intro cname h; rw [buildRecords_find_CNAME, h]
  · intro mxRecords h; rw [buildRecords_find_MX, h]
  · intro txtRecords h; rw [buildRecords_find_TXT, h]
  · intro nsRecords h; rw [buildRecords_find_NS, h]

theorem resolveDNS_partial_failure_nonfatal_witness :
    (resolveDNS idToASCII lookupMixed 0 [] "example.com").records =
      buildRecords (lookupMixed "example.com") ∧
    assocFind "MX" (buildRecords (lookupMixed "example.com")) = none ∧
    assocFind "A" (buildRecords (lookupMixed "example.com")) = some ["93.184.216.34"] ∧
    assocFind "TXT" (buildRecords (lookupMixed "example.com")) = some ["v=spf1 -all"] := by
  have h := resolveDNS_partial_failure_nonfatal idToASCII lookupMixed 0 [] "example.com"
    (lookupMixed "example.com") rfl rfl
  refine ⟨h.1, h.2.2.2.1 rfl, ?_, h.2.2.2.2.2.2.2.2.2.1 ["v=spf1 -all"] rfl⟩
  rw [(h.2.2.2.2.2.2.1 [{ isV4 := true, str := "93.184.216.34" }] rfl).1]
  decide

/-- Counterexample to claim C2 as stated: when the TXT lookup succeeds with
zero values, the returned record set maps the key `"TXT"` to the empty list
(the TXT block assigns the returned slice directly instead of appending), so a
key can be present with an empty value list. -/
theorem resolveDNS_txt_empty_counterexample :
    assocFind "TXT" (resolveDNS idToASCII lookupTxtEmpty 0 [] "example.com").records =
      some ([] : List String) ∧
    ¬ (∀ (k : String) (vs : List String),
        assocFind k (resolveDNS idToASCII lookupTxtEmpty 0 [] "example.com").records =
            some vs →
          vs ≠ []) := by
  have h : assocFind "TXT"
      (resolveDNS idToASCII lookupTxtEmpty 0 [] "example.com").records =
        some ([] : List String) := by decide
  exact ⟨h, fun hall => hall "TXT" [] h rfl⟩

/-- Claim C2, amended: on a cache miss, the returned record set has a key only
for a record type whose lookup succeeded; for `A`, `AAAA`, `CNAME`, `MX` and
`NS` the key is present only with at least one value, while a TXT lookup that
succeeds with zero values yields a `"TXT"` key mapped to the empty list. -/
theorem resolveDNS_key_presence (toASCII : String → Option String)
    (lookup : String → LookupResults) (now : Nat) (cache : Cache) (domain : String)
    (r : LookupResults)
    (hr : r = lookup (normalizeDomain toASCII domain))
    (hmiss : getCachedResult now cache (normalizeDomain toASCII domain) = none) :
    ∀ (k : String) (vs : List String),
      assocFind k (resolveDNS toASCII lookup now cache domain).records = some vs →
        (k = "A" ∧ (∃ ips, r.ip = some ips ∧ vs = v4strs ips) ∧ vs ≠ []) ∨
        (k = "AAAA" ∧ (∃ ips, r.ip = some ips ∧ vs = v6strs ips) ∧ vs ≠ []) ∨
        (k = "CNAME" ∧ (∃ cname, r.cname = some cname ∧ vs = [cname]) ∧ vs ≠ []) ∨
        (k = "MX" ∧ (∃ mxRecords, r.mx = some mxRecords ∧ vs = mxRecords.map mxString) ∧
          vs ≠ []) ∨
        (k = "NS" ∧ (∃ nsRecords, r.ns = some nsRecords ∧ vs = nsRecords.map NSRec.host) ∧
          vs ≠ []) ∨
        (k = "TXT" ∧ r.txt = some vs) := by
  subst hr
  intro k vs hfind
  rw [resolveDNS_miss_records toASCII lookup now cache domain hmiss] at hfind
  by_cases hA : k = "A"
  · subst hA
    cases hip : (lookup (normalizeDomain toASCII domain)).ip with
    | none => rw [buildRecords_find_A_none _ hip] at hfind; exact absurd hfind (by simp)
    | some ips =>
        rw [buildRecords_find_A_some _ ips hip] at hfind
        by_cases hv : v4strs ips = []
        · rw [if_pos hv] at hfind; exact absurd hfind (by simp)
        · rw [if_neg hv] at hfind
          have hvs : vs = v4strs ips := (Option.some_inj.mp hfind).symm
          exact Or.inl ⟨rfl, ⟨ips, rfl, hvs⟩, by rw [hvs]; exact hv⟩
  by_cases hAAAA : k = "AAAA"
  · subst hAAAA
    cases hip : (lookup (normalizeDomain toASCII domain)).ip with
    | none => rw [buildRecords_find_AAAA_none _ hip] at hfind; exact absurd hfind (by simp)
    | some ips =>
        rw [buildRecords_find_AAAA_some _ ips hip] at hfind
        by_cases hv : v6strs ips = []
        · rw [if_pos hv] at hfind; exact absurd hfind (by simp)
        · rw [if_neg hv] at hfind
          have hvs : vs = v6strs ips := (Option.some_inj.mp hfind).symm
          exact Or.inr (Or.inl ⟨rfl, ⟨ips, rfl, hvs⟩, by rw [hvs]; exact hv⟩)
  by_cases hCNAME : k = "CNAME"
  · subst hCNAME
    cases hcn : (lookup (normalizeDomain toASCII domain)).cname with
    | none => rw [buildRecords_find_CNAME_none _ hcn] at hfind; exact absurd hfind (by simp)
    | some cname =>
        rw [buildRecords_find_CNAME_some _ cname hcn] at hfind
        have hvs : vs = [cname] := (Option.some_inj.mp hfind).symm
        exact Or.inr (Or.inr (Or.inl ⟨rfl, ⟨cname, rfl, hvs⟩, by rw [hvs]; simp⟩))
  by_cases hMX : k = "MX"
  · subst hMX
    cases hmx : (lookup (normalizeDomain toASCII domain)).mx with
    | none => rw [buildRecords_find_MX_none _ hmx] at hfind; exact absurd hfind (by simp)
    | some mxRecords =>
        rw [buildRecords_find_MX_some _ mxRecords hmx] at hfind
        by_cases hv : mxRecords = []
        · rw [if_pos hv] at hfind; exact absurd hfind (by simp)
        · rw [if_neg hv] at hfind
          have hvs : vs = mxRecords.map mxString := (Option.some_inj.mp hfind).symm
          exact Or.inr (Or.inr (Or.inr (Or.inl ⟨rfl, ⟨mxRecords, rfl, hvs⟩,
            by rw [hvs]; simpa using hv⟩)))
  by_cases hNS : k = "NS"
  · subst hNS
    cases hns : (lookup (normalizeDomain toASCII domain)).ns with
    | none => rw [buildRecords_find_NS_none _ hns] at hfind; exact absurd hfind (by simp)
    | some nsRecords =>
        rw [buildRecords_find_NS_some _ nsRecords hns] at hfind
        by_cases hv : nsRecords = []
        · rw [if_pos hv] at hfind; exact absurd hfind (by simp)
        · rw [if_neg hv] at hfind
          have hvs : vs = nsRecords.map NSRec.host := (Option.some_inj.mp hfind).symm
          exact Or.inr (Or.inr (Or.inr (Or.inr (Or.inl ⟨rfl, ⟨nsRecords, rfl, hvs⟩,
            by rw [hvs]; simpa using hv⟩))))
  by_cases hTXT : k = "TXT"
  · subst hTXT
    rw [buildRecords_find_TXT] at hfind
    exact Or.inr (Or.inr (Or.inr (Or.inr (Or.inr ⟨rfl, hfind⟩))))
  · rw [buildRecords_find_other _ k hA hAAAA hCNAME hMX hTXT hNS] at hfind
    exact absurd hfind (by simp)

theorem resolveDNS_key_presence_witness :
    (lookupTxtEmpty "example.com").txt = some ([] : List String) := by
  have h := resolveDNS_key_presence idToASCII lookupTxtEmpty 0 [] "example.com"
    (lookupTxtEmpty "example.com") rfl rfl "TXT" [] (by decide)
  rcases h with ⟨hk, _, _⟩ | ⟨hk, _, _⟩ | ⟨hk, _, _⟩ | ⟨hk, _, _⟩ | ⟨hk, _, _⟩ | ⟨_, ht⟩
  · exact absurd hk (by decide)
  · exact absurd hk (by decide)
  · exact absurd hk (by decide)
  · exact absurd hk (by decide)
  · exact absurd hk (by decide)
  · exact ht

/-- Counterexample to claim C9 as stated: the argument `"1.2.3.4:53"` contains
a colon, yet because the switch tests for a dot first, `main` dispatches it to
single-domain resolution, not to reverse lookup. -/
theorem mainDispatch_colon_with_dot_counterexample :
    containsChar "1.2.3.4:53" ':' = true ∧
    mainDispatch ["dns-resolver", "1.2.3.4:53"] = Action.resolveSingle "1.2.3.4:53" ∧
    (mainDispatch ["dns-resolver", "1.2.3.4:53"]).isReverse = false := by
  refine ⟨by decide, by decide, by decide⟩

/-- Claim C9, amended: an argument containing a colon is dispatched to reverse
lookup only when it does not also contain a dot; the dot case of the switch is
tested first and captures any argument containing both. -/
theorem mainDispatch_colon_reverse (prog arg : String) (rest : List String)
    (hcolon : containsChar arg ':' = true) (hdot : containsChar arg '.' = false) :
    mainDispatch (prog :: arg :: rest) = Action.reverse arg := by
  simp [mainDispatch, hdot, hcolon]

theorem mainDispatch_colon_reverse_witness :
    mainDispatch ["dns-resolver", "::1"] = Action.reverse "::1" :=
  mainDispatch_colon_reverse "dns-resolver" "::1" [] (by decide) (by decide)

end DNSResolver
